import Mathlib

/-!
Shallow embedding of `packages/trace-viewer/src/ui/actionList.tsx`.

The file embeds the two components of the action list view:

* the List Controller (`ActionList`): its `onKeyDown` handler, which maps
  ArrowDown/ArrowUp key presses to a new selection index and invokes the
  `onSelected` callback with the element of `actions` at that index
  (JS out-of-range indexing yields `undefined`, modelled as `none`);
* the Item Presenter (`ActionListItem`): its pointer-leave handler, the
  error/warning badges, the duration text, the locator annotation and the
  icon-area click handler;
* the helper `scrollIntoViewIfNeeded`.

Items (`ActionTraceEvent` values) are compared by reference identity in the
source (`===`, `Array.prototype.indexOf`); the embedding leaves the item type
abstract with decidable equality standing for reference identity.  JS
truthiness tests that appear in the source are translated value-for-value:
`undefined` and `null` are falsy (`Option.none`), the number `0` is falsy,
the empty string is falsy, every object is truthy.  External collaborators
(`msToString`, `asLocator`, `modelUtil.stats`) are abstract function
parameters.  JS numbers carried by the data (timestamps, durations in
milliseconds) are modelled as integers.
-/

universe u

variable {α : Type u}

/-- JS `actions.indexOf(a)` with the running position accumulated: the index
of the first element equal to `a` (reference identity), or `-1` when `a` does
not occur. -/
def jsIndexOfAux [DecidableEq α] (a : α) : List α → Int → Int
  | [], _ => -1
  | x :: xs, k => if x = a then k else jsIndexOfAux a xs (k + 1)

/-- JS `actions.indexOf(a)` (source line 60). -/
def jsIndexOf [DecidableEq α] (xs : List α) (a : α) : Int :=
  jsIndexOfAux a xs 0

/-- JS array subscript `actions[i]` for an arbitrary integer index: the
element when `0 ≤ i < length`, `undefined` (here `none`) otherwise. -/
def jsGetElem (xs : List α) (i : Int) : Option α :=
  if 0 ≤ i then xs.get? i.toNat else none

/-- Source line 60, `selectedAction ? actions.indexOf(selectedAction) : -1`:
the current index of the keyboard handler.  An object is always truthy, so
the conditional tests only for `undefined`. -/
def currentIndex [DecidableEq α] (actions : List α) (selectedAction : Option α) : Int :=
  match selectedAction with
  | some a => jsIndexOf actions a
  | none => -1

/-- What the `onKeyDown` handler of the List Controller did.

* `consumed`: whether `stopPropagation`/`preventDefault` ran (lines 58-59);
* `scrollTarget`: the index passed to `children.item` for the scroll-into-view
  lookup (lines 74-75), when the handler got past the key guard;
* `onSelectedArg`: `some arg` when `onSelected(arg)` was invoked (line 76);
  the inner `Option` is the JS value `actions[newIndex]`, which is
  `undefined` (`none`) when `newIndex` is out of range. -/
structure KeyDownResult (α : Type u) where
  consumed : Bool
  scrollTarget : Option Int
  onSelectedArg : Option (Option α)
deriving DecidableEq

/-- The `onKeyDown` handler of `ActionList` (source lines 55-77), as a
function of the props it closes over and the event key. -/
def handleKeyDown [DecidableEq α] (actions : List α) (selectedAction : Option α)
    (key : String) : KeyDownResult α :=
  if key ≠ "ArrowDown" ∧ key ≠ "ArrowUp" then
    { consumed := false, scrollTarget := none, onSelectedArg := none }
  else
    let len : Int := actions.length
    let index : Int := currentIndex actions selectedAction
    let n1 : Int :=
      if key = "ArrowDown" then
        if index = -1 then 0 else min (index + 1) (len - 1)
      else index
    let newIndex : Int :=
      if key = "ArrowUp" then
        if index = -1 then len - 1 else max (index - 1) 0
      else n1
    { consumed := true
      scrollTarget := some newIndex
      onSelectedArg := some (jsGetElem actions newIndex) }

/-- The `onMouseLeave` handler of an `ActionListItem` row (source line 122),
`(highlightedAction === action) && onHighlighted(undefined)`.  The result
records the invocation of `onHighlighted`: `some none` means
`onHighlighted(undefined)` ran, `none` means no callback was invoked. -/
def onMouseLeave [DecidableEq α] (action : α) (highlightedAction : Option α) :
    Option (Option α) :=
  if highlightedAction = some action then some none else none

/-- The two numeric badges of the icon area (source lines 132-133): `some c`
is a rendered badge whose `action-icon-value` text is the count `c`, `none`
is an omitted badge. -/
structure Badges where
  errorBadge : Option Nat
  warningBadge : Option Nat
deriving DecidableEq

/-- Source lines 132-133, with `errors`/`warnings` the counts produced by the
external collaborator `modelUtil.stats(action)` (line 107).  The source gates
each badge on `!!count`, the JS truthiness of a number: a count is truthy
exactly when it is nonzero. -/
def renderBadges (errors warnings : Nat) : Badges :=
  { errorBadge := if errors ≠ 0 then some errors else none
    warningBadge := if warnings ≠ 0 then some warnings else none }

/-- The `Language` union of `@isomorphic/locatorGenerators`, imported on
source line 24 (named here with an `Sdk` front so as not to collide with
Mathlib's `Language`). -/
inductive SdkLanguage where
  | javascript
  | python
  | java
  | csharp
deriving DecidableEq

/-- The fields of `action.metadata` that `ActionListItem` reads (lines
103-135).  `endTime` and the `params` fields are modelled as optional:
the trace type is not part of this repository slice, and the source guards
each of them by a JS truthiness test before use.  Timestamps are JS numbers,
modelled as integers. -/
structure CallMetadata where
  id : String
  apiName : String
  method : String
  startTime : Int
  endTime : Option Int
  selector : Option String
  url : Option String
  errorMessage : Option String
deriving DecidableEq

/-- Source line 130, `metadata.endTime ? msToString(metadata.endTime -
metadata.startTime) : 'Timed Out'`.  JS truthiness of a number: `undefined`
and `0` are falsy, every other number is truthy, so an `endTime` of `0`
takes the `'Timed Out'` branch. -/
def actionDuration (msToString : Int → String) (m : CallMetadata) : String :=
  match m.endTime with
  | some e => if e = 0 then "Timed Out" else msToString (e - m.startTime)
  | none => "Timed Out"

/-- Source line 108, `sdkLanguage || 'javascript'`: every `Language` value is
a nonempty string literal, hence truthy, so the fallback fires exactly when
`sdkLanguage` is `undefined`. -/
def jsOrJavascript (sdkLanguage : Option SdkLanguage) : SdkLanguage :=
  sdkLanguage.getD SdkLanguage.javascript

/-- Source line 108, `metadata.params.selector ? asLocator(sdkLanguage ||
'javascript', metadata.params.selector) : undefined`.  JS truthiness of a
string: `undefined` and the empty string are falsy, so an empty selector
yields no annotation. -/
def actionLocator (asLocator : SdkLanguage → String → String)
    (sdkLanguage : Option SdkLanguage) (m : CallMetadata) : Option String :=
  match m.selector with
  | some s => if s = "" then none else some (asLocator (jsOrJavascript sdkLanguage) s)
  | none => none

/-- A callback invocation an `ActionListItem` row can emit. -/
inductive UIEvent (α : Type u) where
  | selected (a : α)
  | highlighted (a : Option α)
  | setTab (tab : String)
deriving DecidableEq

/-- A DOM click handler as the embedding sees it: the callback invocations it
emits and whether it calls `stopPropagation` on the event. -/
structure DomHandler (α : Type u) where
  events : List (UIEvent α)
  stopsPropagation : Bool

/-- DOM event bubbling: the handlers on the path from the click target to the
root run innermost first, and a handler that stops propagation cuts the rest
off. -/
def bubble : List (DomHandler α) → List (UIEvent α)
  | [] => []
  | h :: rest => h.events ++ (if h.stopsPropagation then [] else bubble rest)

/-- Source line 131, `onClick={() => setSelectedTab('console')}` on the
`action-icons` div: it invokes the callback and does not stop propagation. -/
def iconAreaClickHandler : DomHandler α :=
  { events := [UIEvent.setTab "console"], stopsPropagation := false }

/-- Source line 120, `onClick={() => onSelected(action)}` on the row div. -/
def rowClickHandler (action : α) : DomHandler α :=
  { events := [UIEvent.selected action], stopsPropagation := false }

/-- A click on the icon-badge area of a row: the `action-icons` div is a
child of the row div (lines 117-134), so the click runs the icon-area
handler and then bubbles to the row's own click handler. -/
def clickIconArea (action : α) : List (UIEvent α) :=
  bubble [iconAreaClickHandler, rowClickHandler action]

/-- The only facet of a DOM element the helper on source lines 139-146
inspects: whether the non-standard `scrollIntoViewIfNeeded` method exists on
it (feature detection). -/
structure DomElement where
  hasScrollIntoViewIfNeeded : Bool
deriving DecidableEq

/-- A scroll side effect the helper can perform on its element. -/
inductive ScrollAction where
  | ifNeeded (centerIfNeeded : Bool)
  | plain
deriving DecidableEq

/-- Source lines 139-146.  The argument is `Element | null | undefined`; both
absent values are falsy and map to `none`.  The codomain is `Except` so that
a JS `TypeError` (a property access on a missing element) would be
representable; the source's `if (!element) return;` guard keeps every branch
returning normally. -/
def scrollIntoViewIfNeeded (element : Option DomElement) :
    Except String (List ScrollAction) :=
  match element with
  | none => Except.ok []
  | some e =>
    if e.hasScrollIntoViewIfNeeded then Except.ok [ScrollAction.ifNeeded false]
    else Except.ok [ScrollAction.plain]

/-- Fixture: a metadata record whose action timed out at the zero timestamp:
`endTime` is present but equal to `0`. -/
def timedOutAtZero : CallMetadata :=
  { id := "call-1"
    apiName := "page.click"
    method := "click"
    startTime := 0
    endTime := some 0
    selector := none
    url := none
    errorMessage := none }

/-- Fixture: a metadata record for a completed action (start 0, end 100). -/
def finishedMeta : CallMetadata :=
  { id := "call-2"
    apiName := "page.click"
    method := "click"
    startTime := 0
    endTime := some 100
    selector := none
    url := none
    errorMessage := none }

/-- Fixture: a metadata record whose `params.selector` is the empty string. -/
def emptySelectorMeta : CallMetadata :=
  { id := "call-3"
    apiName := "page.click"
    method := "click"
    startTime := 0
    endTime := some 100
    selector := some ""
    url := none
    errorMessage := none }

/-- Fixture: a metadata record with selector `button.submit`. -/
def submitButtonMeta : CallMetadata :=
  { id := "call-4"
    apiName := "page.click"
    method := "click"
    startTime := 0
    endTime := some 100
    selector := some "button.submit"
    url := none
    errorMessage := none }

/-- Fixture: a concrete time formatter used to instantiate the abstract
`msToString` collaborator in closed statements. -/
def fmtFixture : Int → String :=
  fun q => if q = 0 then "0ms" else if q = 100 then "100ms" else "ms"

/-- Fixture: a concrete locator generator used to instantiate the abstract
`asLocator` collaborator in closed statements. -/
def locFixture : SdkLanguage → String → String :=
  fun l s => String.append (if l = SdkLanguage.python then "py:" else "js:") s

/-- Evaluation of the keyboard handler on an ArrowDown key: the guard passes
and the new index follows the ArrowDown branch of lines 62-67. -/
theorem handleKeyDown_down_eq [DecidableEq α] (S : List α) (sel : Option α) :
    handleKeyDown S sel "ArrowDown" =
      { consumed := true
        scrollTarget := some (if currentIndex S sel = -1 then 0
          else min (currentIndex S sel + 1) ((S.length : Int) - 1))
        onSelectedArg := some (jsGetElem S (if currentIndex S sel = -1 then 0
          else min (currentIndex S sel + 1) ((S.length : Int) - 1))) } := by
  simp [handleKeyDown]

/-- Evaluation of the keyboard handler on an ArrowUp key: the guard passes
and the new index follows the ArrowUp branch of lines 68-73. -/
theorem handleKeyDown_up_eq [DecidableEq α] (S : List α) (sel : Option α) :
    handleKeyDown S sel "ArrowUp" =
      { consumed := true
        scrollTarget := some (if currentIndex S sel = -1 then (S.length : Int) - 1
          else max (currentIndex S sel - 1) 0)
        onSelectedArg := some (jsGetElem S (if currentIndex S sel = -1 then (S.length : Int) - 1
          else max (currentIndex S sel - 1) 0)) } := by
  simp [handleKeyDown]

/-- An in-range JS subscript returns the list element. -/
theorem jsGetElem_eq_get (xs : List α) (i : Int) (h0 : 0 ≤ i) (h : i.toNat < xs.length) :
    jsGetElem xs i = some (xs.get ⟨i.toNat, h⟩) := by
  simp [jsGetElem, h0, List.get?_eq_get h]

/-- JS `indexOf` returns `-1` for an element that does not occur. -/
theorem jsIndexOfAux_not_mem [DecidableEq α] (a : α) (S : List α) (ha : a ∉ S) (k : Int) :
    jsIndexOfAux a S k = -1 := by
  induction S generalizing k with
  | nil => rfl
  | cons x xs ih =>
      have hx : ¬ (x = a) := by
        intro h
        exact ha (h ▸ List.mem_cons_self x xs)
      have hxs : a ∉ xs := fun h => ha (List.mem_cons_of_mem x h)
      simp [jsIndexOfAux, hx, ih hxs]

/-- A selection that is absent or not an element of the sequence yields
current index `-1`. -/
theorem currentIndex_stale [DecidableEq α] (S : List α) (sel : Option α)
    (hsel : ∀ a, sel = some a → a ∉ S) : currentIndex S sel = -1 := by
  cases sel with
  | none => rfl
  | some a => exact jsIndexOfAux_not_mem a S (hsel a rfl) 0

/-- C1: on an empty sequence the keyboard handler is not a no-op: for both
arrow keys it computes an out-of-range index (`0` for ArrowDown, `-1` for
ArrowUp) and still invokes `onSelected`, passing it the JS value
`actions[newIndex] = undefined` (`some none` below records that invocation).
This exhibits the divergence between the code and the claim. -/
theorem emptyList_keydown_invokes_onSelected :
    (handleKeyDown ([] : List Nat) none "ArrowDown").onSelectedArg = some none ∧
    (handleKeyDown ([] : List Nat) none "ArrowUp").onSelectedArg = some none ∧
    (handleKeyDown ([] : List Nat) none "ArrowDown").scrollTarget = some 0 ∧
    (handleKeyDown ([] : List Nat) none "ArrowUp").scrollTarget = some (-1) := by
  decide

/-- C2: for a non-empty sequence and a current index `i` in `[-1, len)`, an
ArrowDown key press computes new index `0` when `i = -1` and
`min (i+1) (len-1)` otherwise, and invokes `onSelected` with the element of
the sequence at that new index. -/
theorem arrowDown_moves [DecidableEq α] (S : List α) (sel : Option α) (i : Int)
    (hne : S ≠ []) (hi : currentIndex S sel = i) (h1 : -1 ≤ i) (h2 : i < (S.length : Int)) :
    ∃ h : (if i = -1 then (0 : Int) else min (i + 1) ((S.length : Int) - 1)).toNat < S.length,
      (handleKeyDown S sel "ArrowDown").scrollTarget =
        some (if i = -1 then (0 : Int) else min (i + 1) ((S.length : Int) - 1)) ∧
      (handleKeyDown S sel "ArrowDown").onSelectedArg =
        some (some (S.get ⟨(if i = -1 then (0 : Int)
          else min (i + 1) ((S.length : Int) - 1)).toNat, h⟩)) := by
  have hlen : 0 < S.length := List.length_pos.mpr hne
  have hb : (if i = -1 then (0 : Int) else min (i + 1) ((S.length : Int) - 1)).toNat
      < S.length := by
    rcases eq_or_ne i (-1) with h | h
    · simp only [h, if_pos rfl]; omega
    · rw [if_neg h]; omega
  have h0 : 0 ≤ (if i = -1 then (0 : Int) else min (i + 1) ((S.length : Int) - 1)) := by
    rcases eq_or_ne i (-1) with h | h
    · simp [h]
    · rw [if_neg h]; omega
  refine ⟨hb, ?_, ?_⟩
  · rw [handleKeyDown_down_eq, hi]
  · rw [handleKeyDown_down_eq, hi]
    simp only []
    rw [jsGetElem_eq_get S _ h0 hb]

/-- C2 witness: sequence `[10, 20, 30]`, selected `20` (index 1): ArrowDown
selects `30`. -/
theorem arrowDown_moves_witness :
    (handleKeyDown [10, 20, 30] (some 20) "ArrowDown").onSelectedArg = some (some 30) := by
  obtain ⟨h, _, e⟩ :=
    arrowDown_moves [10, 20, 30] (some 20) 1 (by decide) (by decide) (by decide) (by decide)
  rw [e]; rfl

/-- C3: for a non-empty sequence and a current index `i` in `[-1, len)`, an
ArrowUp key press computes new index `len - 1` when `i = -1` and
`max (i-1) 0` otherwise, and invokes `onSelected` with the element of the
sequence at that new index. -/
theorem arrowUp_moves [DecidableEq α] (S : List α) (sel : Option α) (i : Int)
    (hne : S ≠ []) (hi : currentIndex S sel = i) (h1 : -1 ≤ i) (h2 : i < (S.length : Int)) :
    ∃ h : (if i = -1 then (S.length : Int) - 1 else max (i - 1) 0).toNat < S.length,
      (handleKeyDown S sel "ArrowUp").scrollTarget =
        some (if i = -1 then (S.length : Int) - 1 else max (i - 1) 0) ∧
      (handleKeyDown S sel "ArrowUp").onSelectedArg =
        some (some (S.get ⟨(if i = -1 then (S.length : Int) - 1
          else max (i - 1) 0).toNat, h⟩)) := by
  have hlen : 0 < S.length := List.length_pos.mpr hne
  have hb : (if i = -1 then (S.length : Int) - 1 else max (i - 1) 0).toNat < S.length := by
    rcases eq_or_ne i (-1) with h | h
    · simp only [h, if_pos rfl]; omega
    · rw [if_neg h]; omega
  have h0 : 0 ≤ (if i = -1 then (S.length : Int) - 1 else max (i - 1) 0) := by
    rcases eq_or_ne i (-1) with h | h
    · simp only [h, if_pos rfl]; omega
    · rw [if_neg h]; omega
  refine ⟨hb, ?_, ?_⟩
  · rw [handleKeyDown_up_eq, hi]
  · rw [handleKeyDown_up_eq, hi]
    simp only []
    rw [jsGetElem_eq_get S _ h0 hb]

/-- C3 witness: the spec's scenario: a single-item sequence `[5]` with
nothing selected: ArrowUp invokes `onSelected` with that item. -/
theorem arrowUp_moves_witness :
    (handleKeyDown [5] none "ArrowUp").onSelectedArg = some (some 5) := by
  obtain ⟨h, _, e⟩ :=
    arrowUp_moves [5] none (-1) (by decide) (by decide) (by decide) (by decide)
  rw [e]; rfl

/-- C9: when the supplied selection is absent or not an element of the
sequence, the handler's current index is `-1`, so ArrowDown selects the first
element and ArrowUp selects the last. -/
theorem stale_selection_navigation [DecidableEq α] (S : List α) (sel : Option α)
    (hne : S ≠ []) (hsel : ∀ a, sel = some a → a ∉ S) :
    currentIndex S sel = -1 ∧
    (handleKeyDown S sel "ArrowDown").onSelectedArg = some (some (S.head hne)) ∧
    (handleKeyDown S sel "ArrowUp").onSelectedArg = some (some (S.getLast hne)) := by
  have hlen : 0 < S.length := List.length_pos.mpr hne
  have hcur : currentIndex S sel = -1 := currentIndex_stale S sel hsel
  refine ⟨hcur, ?_, ?_⟩
  · rw [handleKeyDown_down_eq, hcur]
    rw [if_pos rfl]
    have hb : (0 : Int).toNat < S.length := by omega
    rw [jsGetElem_eq_get S 0 (by omega) hb]
    have : S.head hne = S.get ⟨0, hlen⟩ := by
      cases S with
      | nil => exact absurd rfl hne
      | cons x xs => rfl
    rw [this]
    rfl
  · rw [handleKeyDown_up_eq, hcur]
    rw [if_pos rfl]
    have hb : ((S.length : Int) - 1).toNat < S.length := by omega
    rw [jsGetElem_eq_get S _ (by omega) hb]
    have hgl : S.getLast hne = S.get ⟨((S.length : Int) - 1).toNat, hb⟩ := by
      rw [List.getLast_eq_getElem]
      simp [List.get_eq_getElem]
    rw [hgl]

/-- C9 witness: sequence `[1, 2, 3]` with the stale selection `9`: ArrowDown
selects `1`, ArrowUp selects `3`. -/
theorem stale_selection_navigation_witness :
    (handleKeyDown [1, 2, 3] (some 9) "ArrowDown").onSelectedArg = some (some 1) ∧
    (handleKeyDown [1, 2, 3] (some 9) "ArrowUp").onSelectedArg = some (some 3) := by
  obtain ⟨hc, hd, hu⟩ :=
    stale_selection_navigation [1, 2, 3] (some 9) (by decide) (by decide)
  exact ⟨hd.trans rfl, hu.trans rfl⟩

/-- C4: the pointer-leave handler of a row invokes `onHighlighted(undefined)`
(result `some none`) exactly when the row's item is the currently highlighted
item, and invokes no callback at all (result `none`) exactly otherwise; in
particular a highlight already moved to another row is never cleared. -/
theorem mouseLeave_stale_guard [DecidableEq α] (action : α) (highlightedAction : Option α) :
    (onMouseLeave action highlightedAction = some none ↔ highlightedAction = some action) ∧
    (onMouseLeave action highlightedAction = none ↔ highlightedAction ≠ some action) := by
  unfold onMouseLeave
  by_cases h : highlightedAction = some action <;> simp [h]

/-- C5: the error badge is rendered (is `some`) exactly when the derived
error count is nonzero, the warning badge exactly when the warning count is
nonzero, and a rendered badge shows exactly its count. -/
theorem badges_iff (errors warnings : Nat) :
    ((renderBadges errors warnings).errorBadge = some errors ↔ errors ≠ 0) ∧
    ((renderBadges errors warnings).errorBadge = none ↔ errors = 0) ∧
    ((renderBadges errors warnings).warningBadge = some warnings ↔ warnings ≠ 0) ∧
    ((renderBadges errors warnings).warningBadge = none ↔ warnings = 0) := by
  unfold renderBadges
  by_cases he : errors = 0 <;> by_cases hw : warnings = 0 <;> simp [he, hw]

/-- C6 counterexample: a metadata record whose `endTime` is present but equal
to `0` renders `Timed Out`, not the formatter applied to `end - start`: the
claim's "formatter whenever the end timestamp is present" fails at this
input. -/
theorem duration_claim_cex :
    timedOutAtZero.endTime = some 0 ∧
    actionDuration fmtFixture timedOutAtZero = "Timed Out" ∧
    fmtFixture (0 - timedOutAtZero.startTime) = "0ms" ∧
    actionDuration fmtFixture timedOutAtZero ≠ fmtFixture (0 - timedOutAtZero.startTime) := by
  refine ⟨rfl, rfl, by decide, by decide⟩

/-- C6 amended: the displayed duration is the formatter applied to
`end - start` whenever the end timestamp is present and nonzero, and is the
fixed `Timed Out` label whenever the end timestamp is absent or is the unset
sentinel `0`. -/
theorem duration_amended (msToString : Int → String) (m : CallMetadata) :
    (∀ e : Int, m.endTime = some e → e ≠ 0 →
        actionDuration msToString m = msToString (e - m.startTime)) ∧
    (m.endTime = none → actionDuration msToString m = "Timed Out") ∧
    (m.endTime = some 0 → actionDuration msToString m = "Timed Out") := by
  refine ⟨?_, ?_, ?_⟩
  · intro e he hnz
    unfold actionDuration
    rw [he]
    simp [hnz]
  · intro he
    unfold actionDuration
    rw [he]
  · intro he
    unfold actionDuration
    rw [he]
    simp

/-- C6 amended, witness: the completed action (start `0`, end `100`) renders
the formatter's output for `100`. -/
theorem duration_amended_witness :
    actionDuration fmtFixture finishedMeta = "100ms" := by
  have h := (duration_amended fmtFixture finishedMeta).1 100 rfl (by decide)
  exact h.trans (by decide)

/-- C7 counterexample: a metadata record whose selector is present but is the
empty string produces no locator annotation, although the claim requires the
annotation to equal the generator's output on that selector. -/
theorem locator_claim_cex :
    emptySelectorMeta.selector = some "" ∧
    actionLocator locFixture (some SdkLanguage.python) emptySelectorMeta = none ∧
    some (locFixture SdkLanguage.python "") ≠
      actionLocator locFixture (some SdkLanguage.python) emptySelectorMeta := by
  refine ⟨rfl, rfl, by decide⟩

/-- C7 amended: for an item whose selector is present and nonempty the
locator annotation equals the generator applied to the active SDK language
(the supplied one, or the `javascript` fallback when none is supplied) and
the selector; an absent or empty selector produces no annotation. -/
theorem locator_amended (asLocator : SdkLanguage → String → String)
    (sdkLanguage : Option SdkLanguage) (m : CallMetadata) :
    (∀ s : String, m.selector = some s → s ≠ "" →
        actionLocator asLocator sdkLanguage m =
          some (asLocator (jsOrJavascript sdkLanguage) s)) ∧
    (jsOrJavascript none = SdkLanguage.javascript) ∧
    (∀ l : SdkLanguage, jsOrJavascript (some l) = l) ∧
    (m.selector = none → actionLocator asLocator sdkLanguage m = none) ∧
    (m.selector = some "" → actionLocator asLocator sdkLanguage m = none) := by
  refine ⟨?_, rfl, fun l => rfl, ?_, ?_⟩
  · intro s hs hne
    unfold actionLocator
    rw [hs]
    simp [hne]
  · intro hs
    unfold actionLocator
    rw [hs]
  · intro hs
    unfold actionLocator
    rw [hs]
    simp

/-- C7 amended, witness: the spec's scenario, selector `button.submit` with
language `python`: the annotation is the generator's output on
`(python, button.submit)`. -/
theorem locator_amended_witness :
    actionLocator locFixture (some SdkLanguage.python) submitButtonMeta =
      some "py:button.submit" := by
  have h := (locator_amended locFixture (some SdkLanguage.python) submitButtonMeta).1
    "button.submit" rfl (by decide)
  exact h.trans (by decide)

/-- C8 counterexample: a click on the icon-badge area of a row (here the row
of item `0`) requests the `console` tab, but — because the icon-area handler
does not stop propagation and the click bubbles to the row's own click
handler — it also invokes `onSelected` with the row's item, contrary to the
claim that `onSelected` is not invoked. -/
theorem iconClick_claim_cex :
    UIEvent.setTab "console" ∈ clickIconArea (0 : Nat) ∧
    UIEvent.selected 0 ∈ clickIconArea (0 : Nat) := by
  decide

/-- C8 amended: a click on the icon-badge area invokes `setSelectedTab` with
the fixed identifier `console` and, via bubbling to the row's click handler,
also invokes `onSelected` with the row's item — exactly these two callback
invocations, in that order. -/
theorem iconClick_bubbles (action : α) :
    clickIconArea action = [UIEvent.setTab "console", UIEvent.selected action] := by
  rfl

/-- C10: the scroll-into-view helper is total and never throws: every input
produces a normal result, and for an absent element (`undefined` or `null`,
both falsy, hence `none`) it performs no scroll action at all. -/
theorem scrollIntoViewIfNeeded_total :
    scrollIntoViewIfNeeded none = Except.ok [] ∧
    ∀ e : Option DomElement, ∃ acts : List ScrollAction,
      scrollIntoViewIfNeeded e = Except.ok acts := by
  refine ⟨rfl, ?_⟩
  intro e
  match e with
  | none => exact ⟨[], rfl⟩
  | some el =>
    by_cases h : el.hasScrollIntoViewIfNeeded
    · exact ⟨[ScrollAction.ifNeeded false], by simp [scrollIntoViewIfNeeded, h]⟩
    · exact ⟨[ScrollAction.plain], by simp [scrollIntoViewIfNeeded, h]⟩
